import Mathlib

/-!
Verification of the threat-model-assessment JIRA ticket creator
(threat-model-assessment/create_jira_issue.py).

Decoded JSON values are embedded as the inductive type JVal, and the
relevant Python semantics (dictionary lookup, truthiness, iteration,
str() rendering, subscripting) are modelled explicitly.  The functions
validate_input, format_jira_description, check_jira_token and main are
translated from the source.  The jira_helper collaborators
(create_jira_ticket, update_jira_ticket) only shell out to external
processes, so main is modelled as a function of their returned values.
-/

set_option autoImplicit false

/-- A decoded JSON value, as produced by the json module.  Booleans get
their own constructor, but note that for an isinstance check a Python
bool is also an int (bool is a subclass of int).  Floats are modelled as
exact rational numbers carrying the decimal value of their literal. -/
inductive JVal : Type where
  | null : JVal
  | bool : Bool → JVal
  | int : Int → JVal
  | float : ℚ → JVal
  | str : String → JVal
  | arr : List JVal → JVal
  | obj : List (String × JVal) → JVal

/-- A decoded JSON object: an insertion-ordered association list with
string keys, as a Python dict (keys are unique after json decoding; the
lookup below takes the first match, so duplicates are inert). -/
abbrev JObj : Type := List (String × JVal)

/-- First-match lookup in an association list, modelling dict lookup. -/
def assocFind : List (String × JVal) → String → Option JVal
  | [], _ => none
  | (k2, v) :: rest, k => if k2 = k then some v else assocFind rest k

/-- Dictionary lookup on a decoded object: d.get(k) up to the None
default, also the basis of the k in d membership test. -/
def jfind (d : JObj) (k : String) : Option JVal :=
  assocFind d k

/-- Python d.get(k, default) on a decoded object. -/
def jgetD (d : JObj) (k : String) (dflt : JVal) : JVal :=
  (jfind d k).getD dflt

/-- Python truthiness of a decoded JSON value: None, False, 0, 0.0, the
empty string, the empty list and the empty dict are falsy. -/
def JVal.truthy : JVal → Bool
  | JVal.null => false
  | JVal.bool b => b
  | JVal.int n => if n = 0 then false else true
  | JVal.float q => if q = 0 then false else true
  | JVal.str s => if s = "" then false else true
  | JVal.arr [] => false
  | JVal.arr (_ :: _) => true
  | JVal.obj [] => false
  | JVal.obj (_ :: _) => true

/-- isinstance(v, dict) for a decoded JSON value. -/
def JVal.isDict : JVal → Bool
  | JVal.obj _ => true
  | _ => false

/-- isinstance(v, (int, float)) for a decoded JSON value.  In Python a
bool is an instance of int, so booleans pass this check as well. -/
def JVal.isNumber : JVal → Bool
  | JVal.int _ => true
  | JVal.float _ => true
  | JVal.bool _ => true
  | _ => false

/-- Whether a decoded JSON value is a Python str. -/
def JVal.isStr : JVal → Bool
  | JVal.str _ => true
  | _ => false

/--
validate_input from create_jira_issue.py (lines 130-160): validate the
required fields of the input data, returning the list of error
messages, empty when valid.  The five checks are all evaluated, each
appending at most one message, in source order:

1. not data.get(summary)    -> Missing required field: summary
2. not data.get(background) -> Missing required field: background
3. current_state not in data -> Missing required field: current_state
   elif not isinstance(.., dict) -> current_state must be a dictionary
4. tasks not in data -> Missing required field: tasks
   elif not isinstance(.., list) or len == 0 -> tasks must be a non-empty list
5. effort_days not in data -> Missing required field: effort_days
   elif not isinstance(.., (int, float)) -> effort_days must be a number
-/
def validate_input (data : JObj) : List String :=
  (if (jgetD data "summary" JVal.null).truthy then [] else
    ["Missing required field: summary"])
  ++ (if (jgetD data "background" JVal.null).truthy then [] else
    ["Missing required field: background"])
  ++ (match jfind data "current_state" with
      | none => ["Missing required field: current_state"]
      | some v => if v.isDict then [] else ["current_state must be a dictionary"])
  ++ (match jfind data "tasks" with
      | none => ["Missing required field: tasks"]
      | some (JVal.arr (_ :: _)) => []
      | some _ => ["tasks must be a non-empty list"])
  ++ (match jfind data "effort_days" with
      | none => ["Missing required field: effort_days"]
      | some v => if v.isNumber then [] else ["effort_days must be a number"])

example :
    validate_input [("summary", JVal.str "X"), ("background", JVal.str "Y"),
      ("current_state", JVal.obj []), ("tasks", JVal.arr [JVal.obj []]),
      ("effort_days", JVal.int 3)] = [] := by rfl

example :
    validate_input [("tasks", JVal.arr [])] =
      ["Missing required field: summary", "Missing required field: background",
       "Missing required field: current_state", "tasks must be a non-empty list",
       "Missing required field: effort_days"] := by rfl

/-- The single-quote character, written by code point to keep the
development free of quote-literal pitfalls. -/
def singleQuote : Char := Char.ofNat 39

/-- Escaping of one character inside a Python string repr, for the
common cases (backslash, the active quote character, newline, carriage
return, tab). -/
def pyEscapeChar (quote : Char) (c : Char) : String :=
  if c = '\\' then "\\\\"
  else if c = quote then String.singleton '\\' ++ String.singleton quote
  else if c = '\n' then "\\n"
  else if c = '\r' then "\\r"
  else if c = '\t' then "\\t"
  else String.singleton c

/-- Python repr() of a string: single-quoted, switching to double
quotes when the string contains a single quote but no double quote. -/
def pyReprString (s : String) : String :=
  let hasSingle := s.toList.contains singleQuote
  let hasDouble := s.toList.contains (Char.ofNat 34)
  let q := if hasSingle && !hasDouble then Char.ofNat 34 else singleQuote
  String.singleton q ++ String.join (s.toList.map (pyEscapeChar q)) ++ String.singleton q

/-- Decimal digits of num/den after the point, with fuel; terminates
immediately once the remainder is zero, so the exact decimal values
produced by json decoding print exactly. -/
def fracDigits : Nat → Nat → Nat → String
  | 0, _, _ => ""
  | fuel + 1, num, den =>
    if num = 0 then ""
    else
      toString (num * 10 / den) ++ fracDigits fuel (num * 10 % den) den

/-- Python str() of a float, modelled on exact rationals: sign, integer
part, a point, then the decimal expansion (or 0 when exact), matching
the Python rendering of the decimal literals produced by json decoding.
No claim depends on float formatting. -/
def pyFloatStr (q : ℚ) : String :=
  let sign := if q < 0 then "-" else ""
  let n := q.num.natAbs
  let d := q.den
  let frac := fracDigits 40 (n % d) d
  sign ++ toString (n / d) ++ "." ++ (if frac = "" then "0" else frac)

mutual

/-- Python repr() of a decoded JSON value. -/
def pyRepr : JVal → String
  | JVal.null => "None"
  | JVal.bool true => "True"
  | JVal.bool false => "False"
  | JVal.int n => toString n
  | JVal.float q => pyFloatStr q
  | JVal.str s => pyReprString s
  | JVal.arr xs => "[" ++ String.intercalate ", " (pyReprList xs) ++ "]"
  | JVal.obj fs => "\x7b" ++ String.intercalate ", " (pyReprFields fs) ++ "\x7d"

/-- Helper for pyRepr on list elements. -/
def pyReprList : List JVal → List String
  | [] => []
  | v :: vs => pyRepr v :: pyReprList vs

/-- Helper for pyRepr on dict entries. -/
def pyReprFields : List (String × JVal) → List String
  | [] => []
  | (k, v) :: fs => (pyReprString k ++ ": " ++ pyRepr v) :: pyReprFields fs

end

/-- Python str() of a decoded JSON value, as interpolated by an
f-string: a string passes through verbatim, everything else renders by
repr-like rules (None, True, False, numbers, containers). -/
def pyStr : JVal → String
  | JVal.str s => s
  | JVal.null => pyRepr JVal.null
  | JVal.bool b => pyRepr (JVal.bool b)
  | JVal.int n => pyRepr (JVal.int n)
  | JVal.float q => pyRepr (JVal.float q)
  | JVal.arr xs => pyRepr (JVal.arr xs)
  | JVal.obj fs => pyRepr (JVal.obj fs)

/-- Python iteration over a decoded JSON value, as consumed by a for
loop: a list yields its elements, a string its characters (as
one-character strings), a dict its keys; any other value raises
TypeError, modelled as none. -/
def pyIter : JVal → Option (List JVal)
  | JVal.arr xs => some xs
  | JVal.str s => some (s.toList.map (fun c => JVal.str (String.singleton c)))
  | JVal.obj fs => some (fs.map (fun kv => JVal.str kv.1))
  | _ => none

/-- Python subscripting v[k] with a string key: a dict looks the key up
(KeyError when absent, modelled as none); any other value raises
TypeError, also none. -/
def JVal.getItem : JVal → String → Option JVal
  | JVal.obj fs, k => assocFind fs k
  | _, _ => none

/-- Python v.get(k, default): only dicts have the get method, so any
other receiver raises AttributeError, modelled as none. -/
def JVal.pyGet : JVal → String → JVal → Option JVal
  | JVal.obj fs, k, dflt => some ((assocFind fs k).getD dflt)
  | _, _, _ => none

/-- Fail-fast mapping of a fallible function over a list, modelling a
Python loop whose body may raise. -/
def mapMOpt {α β : Type} (f : α → Option β) : List α → Option (List β)
  | [] => some []
  | a :: as =>
    match f a with
    | none => none
    | some b =>
      match mapMOpt f as with
      | none => none
      | some bs => some (b :: bs)

/-- The Reference section of format_jira_description (source lines
86-90): emitted only when data.get(reference_url) is truthy; heading,
a Source line interpolating the url, then a blank line. -/
def referenceParts (data : JObj) : Option (List JVal) :=
  if (jgetD data "reference_url" JVal.null).truthy then do
    let url ← jfind data "reference_url"
    pure [JVal.str "h2. Reference", JVal.str ("Source: " ++ pyStr url), JVal.str ""]
  else
    pure []

/-- The Background section (source lines 92-95): heading, then the raw
background value appended as-is (KeyError, none, when absent), then a
blank line. -/
def backgroundParts (data : JObj) : Option (List JVal) := do
  let bg ← jfind data "background"
  pure [JVal.str "h2. Background", bg, JVal.str ""]

/-- The Current State section (source lines 97-104): heading always,
then one bullet per item of current.get(implemented, []) with the (/)
marker, then one bullet per item of current.get(missing, []) with the
(x) marker, then a blank line, where current is
data.get(current_state, an empty dict). -/
def currentStateParts (data : JObj) : Option (List JVal) := do
  let current := jgetD data "current_state" (JVal.obj [])
  let implemented ← pyIter (← current.pyGet "implemented" (JVal.arr []))
  let missing ← pyIter (← current.pyGet "missing" (JVal.arr []))
  pure ([JVal.str "h2. Current State"]
    ++ implemented.map (fun item => JVal.str ("* (/) " ++ pyStr item))
    ++ missing.map (fun item => JVal.str ("* (x) " ++ pyStr item))
    ++ [JVal.str ""])

/-- One task group of the Tasks section (source lines 111-114): the h3
sub-heading interpolating the 1-based index i and the title of the
group, one bullet per element of its items, then a blank line. -/
def renderTaskGroup (i : Nat) (task_group : JVal) : Option (List JVal) := do
  let title ← task_group.getItem "title"
  let items ← pyIter (← task_group.getItem "items")
  pure ([JVal.str ("h3. " ++ toString i ++ ". " ++ pyStr title)]
    ++ items.map (fun item => JVal.str ("* " ++ pyStr item))
    ++ [JVal.str ""])

/-- The enumerate loop of the Tasks section (source line 110), starting
the numbering at i. -/
def renderTaskGroups (i : Nat) : List JVal → Option (List JVal)
  | [] => some []
  | g :: gs => do
    let out ← renderTaskGroup i g
    let rest ← renderTaskGroups (i + 1) gs
    pure (out ++ rest)

/-- The Tasks section (source lines 106-114): heading, a blank line,
then every task group of data.get(tasks, []) rendered in input order,
numbered from 1. -/
def tasksParts (data : JObj) : Option (List JVal) := do
  let groups ← pyIter (jgetD data "tasks" (JVal.arr []))
  let rendered ← renderTaskGroups 1 groups
  pure ([JVal.str "h2. Tasks", JVal.str ""] ++ rendered)

/-- The Out of Scope section (source lines 116-121): emitted only when
data.get(out_of_scope) is truthy; heading, one bullet per item, then a
blank line. -/
def outOfScopeParts (data : JObj) : Option (List JVal) :=
  if (jgetD data "out_of_scope" JVal.null).truthy then do
    let v ← jfind data "out_of_scope"
    let items ← pyIter v
    pure ([JVal.str "h2. Out of Scope"]
      ++ items.map (fun item => JVal.str ("* " ++ pyStr item))
      ++ [JVal.str ""])
  else
    pure []

/-- The Estimated Effort section (source lines 123-125): heading, then
a line interpolating the effort_days value followed by the word days.
No blank line follows it. -/
def effortParts (data : JObj) : Option (List JVal) := do
  let effort ← jfind data "effort_days"
  pure [JVal.str "h2. Estimated Effort", JVal.str (pyStr effort ++ " days")]

/-- The parts list built by format_jira_description (source lines
74-127): the six sections concatenated in source order.  Each append
of the Python body lands in exactly one section, so the concatenation
is the parts list verbatim. -/
def formatParts (data : JObj) : Option (List JVal) := do
  let r ← referenceParts data
  let b ← backgroundParts data
  let c ← currentStateParts data
  let t ← tasksParts data
  let o ← outOfScopeParts data
  let e ← effortParts data
  pure (r ++ b ++ c ++ t ++ o ++ e)

/-- Conversion of one appended part for the final join: the join method
of a string accepts only strings and raises TypeError otherwise. -/
def partToStr : JVal → Option String
  | JVal.str s => some s
  | _ => none

/-- The final newline join of the parts list (source line 127). -/
def pyJoinLines (parts : List JVal) : Option String :=
  (mapMOpt partToStr parts).map (fun ls => String.intercalate "\n" ls)

/-- format_jira_description from create_jira_issue.py (lines 74-127):
build the parts list, then join it with newlines.  The result is none
exactly when the Python function would raise. -/
def format_jira_description (data : JObj) : Option String :=
  (formatParts data).bind pyJoinLines

/-- The end-to-end example input of the specification. -/
def exampleInput : JObj :=
  [("summary", JVal.str "X"), ("background", JVal.str "Y"),
   ("current_state", JVal.obj [("implemented", JVal.arr [JVal.str "A"]),
                               ("missing", JVal.arr [JVal.str "B"])]),
   ("tasks", JVal.arr [JVal.obj [("title", JVal.str "T"),
                                 ("items", JVal.arr [JVal.str "I1"])]]),
   ("effort_days", JVal.int 3)]

example : validate_input exampleInput = [] := by rfl

example :
    format_jira_description exampleInput =
      some ("h2. Background\nY\n\nh2. Current State\n* (/) A\n* (x) B\n\n"
        ++ "h2. Tasks\n\nh3. 1. T\n* I1\n\nh2. Estimated Effort\n3 days") := by rfl

/-- The setup guidance printed to standard error by check_jira_token
(source lines 55-69) when the token is absent or empty. -/
def jiraTokenGuidance : List String :=
  ["ERROR: JIRA_API_TOKEN environment variable not set",
   "",
   "To create a JIRA API token:",
   "1. Go to https://issues.redhat.com/secure/ViewProfile.jspa",
   "2. Click " ++ String.singleton singleQuote ++ "Personal Access Tokens"
     ++ String.singleton singleQuote ++ " in the left sidebar",
   "3. Click " ++ String.singleton singleQuote ++ "Create token"
     ++ String.singleton singleQuote,
   "4. Give it a name (e.g., " ++ String.singleton singleQuote
     ++ "threat-model-assessment" ++ String.singleton singleQuote ++ ")",
   "5. Set expiration (recommended: 90 days)",
   "6. Copy the token and set it in your shell:",
   "",
   "   export JIRA_API_TOKEN=" ++ String.singleton singleQuote
     ++ "your-token-here" ++ String.singleton singleQuote,
   "",
   "For persistent setup, add to ~/.zsh-custom/globals.zsh:",
   "   echo " ++ String.singleton singleQuote
     ++ "export JIRA_API_TOKEN=\"your-token-here\""
     ++ String.singleton singleQuote ++ " >> ~/.zsh-custom/globals.zsh",
   "   source ~/.zsh-custom/globals.zsh"]

/-- check_jira_token from create_jira_issue.py (lines 51-71): reads the
JIRA_API_TOKEN environment variable (none when unset); when it is unset
or empty (Python not token), prints the setup guidance to standard
error and returns None, else returns the token.  Modelled as the pair
of the standard-error lines and the returned value. -/
def check_jira_token (token : Option String) : List String × Option String :=
  match token with
  | none => (jiraTokenGuidance, none)
  | some t => if t = "" then (jiraTokenGuidance, none) else ([], some t)

/-- The inputs of one program run: the JIRA_API_TOKEN environment
variable, the outcome of json.load on standard input (none for a
decode error, together with the decode error text used in the error
message), and the values returned by the external collaborators
create_jira_ticket and update_jira_ticket of jira_helper.py, which
only drive subprocesses and are modelled by their results.  A
top-level JSON document that is not an object would crash
validate_input with AttributeError; that path is outside every claim
and the parse outcome is therefore typed as an optional object. -/
structure MainEnv : Type where
  jiraApiToken : Option String
  parsedInput : Option JObj
  jsonErrorMsg : String
  createTicketResult : Option String
  updateTicketResult : Bool

/-- The observable outcome of one program run: exit code, the lines
printed by main to standard output and standard error, whether
standard input was read, which collaborator calls were reached, and
whether the run ended in an uncaught exception (an attempt to render
an invalid structure). -/
structure MainOutcome : Type where
  exitCode : Nat
  stdoutLines : List String
  stderrLines : List String
  stdinRead : Bool
  createCalled : Bool
  updateCalled : Bool
  crashed : Bool

/-- Model of the program entry point from create_jira_issue.py (the name main is reserved by Lean) (lines 163-209): check the token
(exit 1 before reading standard input when missing), parse standard
input (exit 1 on a decode error), validate (exit 1 listing the
errors), render, create the ticket (exit 1 when no key is returned),
then update the description (a failure is only a warning: the key is
still printed and the exit code stays 0). -/
def mainRun (env : MainEnv) : MainOutcome :=
  match check_jira_token env.jiraApiToken with
  | (guidance, none) =>
    { exitCode := 1, stdoutLines := [], stderrLines := guidance,
      stdinRead := false, createCalled := false, updateCalled := false,
      crashed := false }
  | (_, some _) =>
    match env.parsedInput with
    | none =>
      { exitCode := 1, stdoutLines := [],
        stderrLines := ["ERROR: Invalid JSON input: " ++ env.jsonErrorMsg],
        stdinRead := true, createCalled := false, updateCalled := false,
        crashed := false }
    | some data =>
      match validate_input data with
      | e :: rest =>
        { exitCode := 1, stdoutLines := [],
          stderrLines := "ERROR: Invalid input data:"
            :: (e :: rest).map (fun err => "  - " ++ err),
          stdinRead := true, createCalled := false, updateCalled := false,
          crashed := false }
      | [] =>
        match format_jira_description data with
        | none =>
          { exitCode := 1, stdoutLines := [], stderrLines := [],
            stdinRead := true, createCalled := false, updateCalled := false,
            crashed := true }
        | some _description =>
          match env.createTicketResult with
          | none =>
            { exitCode := 1, stdoutLines := [],
              stderrLines := ["ERROR: Failed to create JIRA ticket"],
              stdinRead := true, createCalled := true, updateCalled := false,
              crashed := false }
          | some ticket_key =>
            if env.updateTicketResult then
              { exitCode := 0, stdoutLines := [ticket_key], stderrLines := [],
                stdinRead := true, createCalled := true, updateCalled := true,
                crashed := false }
            else
              { exitCode := 0, stdoutLines := [ticket_key],
                stderrLines := ["WARNING: Created " ++ ticket_key
                  ++ " but failed to update description"],
                stdinRead := true, createCalled := true, updateCalled := true,
                crashed := false }


/-- The list of required fields that are missing from an input, in the
fixed check order of the specification: summary and background count as
missing when falsy, the other three when their key is absent. -/
def missingFields (d : JObj) : List String :=
  (if (jgetD d "summary" JVal.null).truthy then [] else ["summary"])
  ++ (if (jgetD d "background" JVal.null).truthy then [] else ["background"])
  ++ (if (jfind d "current_state").isSome then [] else ["current_state"])
  ++ (if (jfind d "tasks").isSome then [] else ["tasks"])
  ++ (if (jfind d "effort_days").isSome then [] else ["effort_days"])

/-- Whether a decoded JSON value is a Python list. -/
def JVal.isList : JVal → Bool
  | JVal.arr _ => true
  | _ => false

theorem jfind_of_truthy (d : JObj) (k : String)
    (h : (jgetD d k JVal.null).truthy = true) :
    jfind d k = some (jgetD d k JVal.null) := by
  unfold jgetD
  cases hf : jfind d k with
  | none =>
    unfold jgetD at h
    rw [hf] at h
    simp [Option.getD, JVal.truthy] at h
  | some v => simp [hf]

theorem check_summary_iff (d : JObj) :
    ((if (jgetD d "summary" JVal.null).truthy then ([] : List String) else
        ["Missing required field: summary"]) = []) ↔
      (jgetD d "summary" JVal.null).truthy = true := by
  cases h : (jgetD d "summary" JVal.null).truthy <;> simp [h]

theorem check_background_iff (d : JObj) :
    ((if (jgetD d "background" JVal.null).truthy then ([] : List String) else
        ["Missing required field: background"]) = []) ↔
      (jgetD d "background" JVal.null).truthy = true := by
  cases h : (jgetD d "background" JVal.null).truthy <;> simp [h]

theorem check_current_state_iff (d : JObj) :
    ((match jfind d "current_state" with
      | none => ["Missing required field: current_state"]
      | some v => if v.isDict then [] else ["current_state must be a dictionary"]) = []) ↔
      ∃ cs, jfind d "current_state" = some cs ∧ cs.isDict = true := by
  cases h : jfind d "current_state" with
  | none => simp [h]
  | some v => cases hv : v.isDict <;> simp [h, hv]

theorem check_tasks_iff (d : JObj) :
    ((match jfind d "tasks" with
      | none => ["Missing required field: tasks"]
      | some (JVal.arr (_ :: _)) => []
      | some _ => ["tasks must be a non-empty list"]) = []) ↔
      ∃ x xs, jfind d "tasks" = some (JVal.arr (x :: xs)) := by
  cases h : jfind d "tasks" with
  | none => simp [h]
  | some v =>
    cases v with
    | arr l => cases l with
      | nil => simp [h]
      | cons x xs => simp [h]
    | null => simp [h]
    | bool b => simp [h]
    | int n => simp [h]
    | float q => simp [h]
    | str s => simp [h]
    | obj fs => simp [h]

theorem check_effort_iff (d : JObj) :
    ((match jfind d "effort_days" with
      | none => ["Missing required field: effort_days"]
      | some v => if v.isNumber then [] else ["effort_days must be a number"]) = []) ↔
      ∃ ev, jfind d "effort_days" = some ev ∧ ev.isNumber = true := by
  cases h : jfind d "effort_days" with
  | none => simp [h]
  | some v => cases hv : v.isNumber <;> simp [h, hv]

/-- The validator returns no errors exactly when the five required
field conditions all hold. -/
theorem validate_input_eq_nil_iff (d : JObj) :
    validate_input d = [] ↔
      ((jgetD d "summary" JVal.null).truthy = true ∧
       (jgetD d "background" JVal.null).truthy = true ∧
       (∃ cs, jfind d "current_state" = some cs ∧ cs.isDict = true) ∧
       (∃ x xs, jfind d "tasks" = some (JVal.arr (x :: xs))) ∧
       (∃ ev, jfind d "effort_days" = some ev ∧ ev.isNumber = true)) := by
  unfold validate_input
  simp only [List.append_eq_nil, check_summary_iff, check_background_iff,
    check_current_state_iff, check_tasks_iff, check_effort_iff]
  tauto

/-- The validator reads nothing but the five required keys. -/
theorem validate_input_frame (d d2 : JObj)
    (h1 : jfind d "summary" = jfind d2 "summary")
    (h2 : jfind d "background" = jfind d2 "background")
    (h3 : jfind d "current_state" = jfind d2 "current_state")
    (h4 : jfind d "tasks" = jfind d2 "tasks")
    (h5 : jfind d "effort_days" = jfind d2 "effort_days") :
    validate_input d = validate_input d2 := by
  unfold validate_input jgetD
  rw [h1, h2, h3, h4, h5]

theorem formatParts_some_iff (d : JObj) (ps : List JVal) :
    formatParts d = some ps ↔
      ∃ r b c t o e, referenceParts d = some r ∧ backgroundParts d = some b ∧
        currentStateParts d = some c ∧ tasksParts d = some t ∧
        outOfScopeParts d = some o ∧ effortParts d = some e ∧
        ps = r ++ b ++ c ++ t ++ o ++ e := by
  constructor
  · intro h
    simp only [formatParts, Option.pure_def, Option.bind_eq_bind,
      Option.bind_eq_some, Option.some.injEq] at h
    obtain ⟨r, hr, b, hb, c, hc, t, ht, o, ho, e, he, hps⟩ := h
    exact ⟨r, b, c, t, o, e, hr, hb, hc, ht, ho, he, hps.symm⟩
  · rintro ⟨r, b, c, t, o, e, hr, hb, hc, ht, ho, he, rfl⟩
    simp [formatParts, hr, hb, hc, ht, ho, he]

theorem referenceParts_of_falsy (d : JObj)
    (h : (jgetD d "reference_url" JVal.null).truthy = false) :
    referenceParts d = some [] := by
  unfold referenceParts
  rw [h]
  simp

theorem referenceParts_of_truthy (d : JObj)
    (h : (jgetD d "reference_url" JVal.null).truthy = true) :
    referenceParts d = some [JVal.str "h2. Reference",
      JVal.str ("Source: " ++ pyStr (jgetD d "reference_url" JVal.null)), JVal.str ""] := by
  unfold referenceParts
  rw [h, jfind_of_truthy d "reference_url" h]
  simp

theorem backgroundParts_some (d : JObj) (b : List JVal)
    (h : backgroundParts d = some b) :
    ∃ bg, jfind d "background" = some bg ∧
      b = [JVal.str "h2. Background", bg, JVal.str ""] := by
  simp only [backgroundParts, Option.pure_def, Option.bind_eq_bind,
    Option.bind_eq_some, Option.some.injEq] at h
  obtain ⟨bg, hbg, hb⟩ := h
  exact ⟨bg, hbg, hb.symm⟩

theorem currentStateParts_some (d : JObj) (c : List JVal)
    (h : currentStateParts d = some c) :
    ∃ iv implemented mv missing,
      (jgetD d "current_state" (JVal.obj [])).pyGet "implemented" (JVal.arr []) = some iv ∧
      pyIter iv = some implemented ∧
      (jgetD d "current_state" (JVal.obj [])).pyGet "missing" (JVal.arr []) = some mv ∧
      pyIter mv = some missing ∧
      c = [JVal.str "h2. Current State"]
        ++ implemented.map (fun item => JVal.str ("* (/) " ++ pyStr item))
        ++ missing.map (fun item => JVal.str ("* (x) " ++ pyStr item))
        ++ [JVal.str ""] := by
  simp only [currentStateParts, Option.pure_def, Option.bind_eq_bind,
    Option.bind_eq_some, Option.some.injEq] at h
  obtain ⟨iv, hiv, impl, himpl, mv, hmv, miss, hmiss, hc⟩ := h
  exact ⟨iv, impl, mv, miss, hiv, himpl, hmv, hmiss, hc.symm⟩

theorem renderTaskGroup_some (i : Nat) (g : JVal) (out : List JVal)
    (h : renderTaskGroup i g = some out) :
    ∃ title iv items, g.getItem "title" = some title ∧
      g.getItem "items" = some iv ∧ pyIter iv = some items ∧
      out = [JVal.str ("h3. " ++ toString i ++ ". " ++ pyStr title)]
        ++ items.map (fun item => JVal.str ("* " ++ pyStr item))
        ++ [JVal.str ""] := by
  simp only [renderTaskGroup, Option.pure_def, Option.bind_eq_bind,
    Option.bind_eq_some, Option.some.injEq] at h
  obtain ⟨title, htitle, iv, hiv, items, hitems, hout⟩ := h
  exact ⟨title, iv, items, htitle, hiv, hitems, hout.symm⟩

theorem tasksParts_some (d : JObj) (t : List JVal)
    (h : tasksParts d = some t) :
    ∃ groups rendered,
      pyIter (jgetD d "tasks" (JVal.arr [])) = some groups ∧
      renderTaskGroups 1 groups = some rendered ∧
      t = [JVal.str "h2. Tasks", JVal.str ""] ++ rendered := by
  simp only [tasksParts, Option.pure_def, Option.bind_eq_bind,
    Option.bind_eq_some, Option.some.injEq] at h
  obtain ⟨groups, hg, rendered, hr, ht⟩ := h
  exact ⟨groups, rendered, hg, hr, ht.symm⟩

theorem outOfScopeParts_of_falsy (d : JObj)
    (h : (jgetD d "out_of_scope" JVal.null).truthy = false) :
    outOfScopeParts d = some [] := by
  unfold outOfScopeParts
  rw [h]
  simp

theorem outOfScopeParts_of_truthy (d : JObj) (v : JVal) (items : List JVal)
    (hv : jfind d "out_of_scope" = some v) (ht : v.truthy = true)
    (hit : pyIter v = some items) :
    outOfScopeParts d = some ([JVal.str "h2. Out of Scope"]
      ++ items.map (fun item => JVal.str ("* " ++ pyStr item))
      ++ [JVal.str ""]) := by
  have htr : (jgetD d "out_of_scope" JVal.null).truthy = true := by
    unfold jgetD
    rw [hv]
    exact ht
  unfold outOfScopeParts
  rw [htr]
  simp [hv, hit]

theorem effortParts_some (d : JObj) (e : List JVal)
    (h : effortParts d = some e) :
    ∃ ev, jfind d "effort_days" = some ev ∧
      e = [JVal.str "h2. Estimated Effort", JVal.str (pyStr ev ++ " days")] := by
  simp only [effortParts, Option.pure_def, Option.bind_eq_bind,
    Option.bind_eq_some, Option.some.injEq] at h
  obtain ⟨ev, hev, he⟩ := h
  exact ⟨ev, hev, he.symm⟩

theorem renderTaskGroups_enumFrom (gs : List JVal) :
    ∀ i, renderTaskGroups i gs =
      (mapMOpt (fun p => renderTaskGroup p.1 p.2) (List.enumFrom i gs)).map
        (fun ls => ls.flatten) := by
  induction gs with
  | nil => intro i; rfl
  | cons g gs ih =>
    intro i
    simp only [renderTaskGroups, List.enumFrom, mapMOpt, Option.pure_def,
      Option.bind_eq_bind]
    cases hg : renderTaskGroup i g with
    | none => simp
    | some out =>
      rw [ih (i + 1)]
      cases hrest : mapMOpt (fun p => renderTaskGroup p.1 p.2) (List.enumFrom (i + 1) gs) with
      | none => simp
      | some outs => simp

/-- Claim C1: for every decoded JSON object d, validate_input d is
empty iff all five conditions hold (summary truthy, background truthy,
current_state a present mapping, tasks a present non-empty list,
effort_days present and numeric in the isinstance sense where a bool
counts as an int), each failed check contributing exactly its message;
and no optional field is ever inspected, so the result is unchanged by
any difference outside the five required keys. -/
theorem claim1_validate_empty_iff (d d2 : JObj)
    (h1 : jfind d "summary" = jfind d2 "summary")
    (h2 : jfind d "background" = jfind d2 "background")
    (h3 : jfind d "current_state" = jfind d2 "current_state")
    (h4 : jfind d "tasks" = jfind d2 "tasks")
    (h5 : jfind d "effort_days" = jfind d2 "effort_days") :
    (validate_input d = [] ↔
      ((jgetD d "summary" JVal.null).truthy = true ∧
       (jgetD d "background" JVal.null).truthy = true ∧
       (∃ cs, jfind d "current_state" = some cs ∧ cs.isDict = true) ∧
       (∃ x xs, jfind d "tasks" = some (JVal.arr (x :: xs))) ∧
       (∃ ev, jfind d "effort_days" = some ev ∧ ev.isNumber = true)))
    ∧ validate_input d = validate_input d2 :=
  ⟨validate_input_eq_nil_iff d, validate_input_frame d d2 h1 h2 h3 h4 h5⟩

/-- Witness for claim C1 at a concrete input: appending an optional
field leaves the validator output unchanged. -/
theorem claim1_validate_empty_iff_witness :
    validate_input exampleInput =
      validate_input (exampleInput ++ [("epic", JVal.str "E-1")]) :=
  (claim1_validate_empty_iff exampleInput
    (exampleInput ++ [("epic", JVal.str "E-1")]) rfl rfl rfl rfl rfl).2

/-- Claim C2 counterexample: the input with tasks bound to an empty
list and everything else absent is missing four required fields, yet
the validator output also contains the tasks type error, so it is not
one message per missing field and nothing else. -/
theorem claim2_counterexample :
    missingFields [("tasks", JVal.arr [])] =
      ["summary", "background", "current_state", "effort_days"] ∧
    validate_input [("tasks", JVal.arr [])] =
      ["Missing required field: summary", "Missing required field: background",
       "Missing required field: current_state", "tasks must be a non-empty list",
       "Missing required field: effort_days"] ∧
    validate_input [("tasks", JVal.arr [])] ≠
      ["Missing required field: summary", "Missing required field: background",
       "Missing required field: current_state",
       "Missing required field: effort_days"] := by
  refine ⟨rfl, rfl, ?_⟩
  decide

/-- Claim C2 (amended): the validator evaluates all five checks and,
for every input missing two or more required fields whose present
required fields pass their type checks, returns exactly one message
per missing field, in the fixed check order, and nothing else. -/
theorem claim2_missing_fields_exact (d : JObj)
    (hcs : ∀ v, jfind d "current_state" = some v → v.isDict = true)
    (hts : ∀ v, jfind d "tasks" = some v → ∃ x xs, v = JVal.arr (x :: xs))
    (hef : ∀ v, jfind d "effort_days" = some v → v.isNumber = true)
    (_htwo : 2 ≤ (missingFields d).length) :
    validate_input d =
      (missingFields d).map (fun f => "Missing required field: " ++ f) := by
  have e1 : (if (jgetD d "summary" JVal.null).truthy then ([] : List String)
      else ["Missing required field: summary"]) =
      ((if (jgetD d "summary" JVal.null).truthy then ([] : List String)
        else ["summary"]).map (fun f => "Missing required field: " ++ f)) := by
    cases h : (jgetD d "summary" JVal.null).truthy <;> simp [h]
  have e2 : (if (jgetD d "background" JVal.null).truthy then ([] : List String)
      else ["Missing required field: background"]) =
      ((if (jgetD d "background" JVal.null).truthy then ([] : List String)
        else ["background"]).map (fun f => "Missing required field: " ++ f)) := by
    cases h : (jgetD d "background" JVal.null).truthy <;> simp [h]
  have e3 : (match jfind d "current_state" with
      | none => ["Missing required field: current_state"]
      | some v => if v.isDict then [] else ["current_state must be a dictionary"]) =
      ((if (jfind d "current_state").isSome then ([] : List String)
        else ["current_state"]).map (fun f => "Missing required field: " ++ f)) := by
    cases h : jfind d "current_state" with
    | none => simp [h]
    | some v => simp [h, hcs v h]
  have e4 : (match jfind d "tasks" with
      | none => ["Missing required field: tasks"]
      | some (JVal.arr (_ :: _)) => []
      | some _ => ["tasks must be a non-empty list"]) =
      ((if (jfind d "tasks").isSome then ([] : List String)
        else ["tasks"]).map (fun f => "Missing required field: " ++ f)) := by
    cases h : jfind d "tasks" with
    | none => simp [h]
    | some v =>
      obtain ⟨x, xs, rfl⟩ := hts v h
      simp [h]
  have e5 : (match jfind d "effort_days" with
      | none => ["Missing required field: effort_days"]
      | some v => if v.isNumber then [] else ["effort_days must be a number"]) =
      ((if (jfind d "effort_days").isSome then ([] : List String)
        else ["effort_days"]).map (fun f => "Missing required field: " ++ f)) := by
    cases h : jfind d "effort_days" with
    | none => simp [h]
    | some v => simp [h, hef v h]
  unfold validate_input missingFields
  rw [List.map_append, List.map_append, List.map_append, List.map_append,
    e1, e2, e3, e4, e5]

/-- Witness for the amended claim C2 at a concrete input missing two
required fields with the present ones valid. -/
theorem claim2_missing_fields_exact_witness :
    validate_input [("summary", JVal.str "X"),
      ("current_state", JVal.obj []), ("tasks", JVal.arr [JVal.obj []])] =
      ["Missing required field: background",
       "Missing required field: effort_days"] := by
  have h := claim2_missing_fields_exact
    [("summary", JVal.str "X"), ("current_state", JVal.obj []),
     ("tasks", JVal.arr [JVal.obj []])]
    (by intro v hv; cases hv; rfl)
    (by intro v hv; cases hv; exact ⟨JVal.obj [], [], rfl⟩)
    (by intro v hv; cases hv)
    (by decide)
  exact h

/-- Claim C9: the renderer is a pure function of its argument, so two
renderings of the same input are byte-identical. -/
theorem claim9_render_deterministic (d : JObj) (s1 s2 : String)
    (h1 : format_jira_description d = some s1)
    (h2 : format_jira_description d = some s2) :
    s1 = s2 := by
  rw [h1] at h2
  exact Option.some.inj h2

/-- Witness for claim C9 at the end-to-end example input. -/
theorem claim9_render_deterministic_witness :
    ("h2. Background\nY\n\nh2. Current State\n* (/) A\n* (x) B\n\n"
      ++ "h2. Tasks\n\nh3. 1. T\n* I1\n\nh2. Estimated Effort\n3 days" : String) =
    ("h2. Background\nY\n\nh2. Current State\n* (/) A\n* (x) B\n\n"
      ++ "h2. Tasks\n\nh3. 1. T\n* I1\n\nh2. Estimated Effort\n3 days" : String) :=
  claim9_render_deterministic exampleInput _ _ rfl rfl

/-- An input whose effort_days is the JSON boolean true and which is
otherwise valid. -/
def boolEffortInput : JObj :=
  [("summary", JVal.str "X"), ("background", JVal.str "Y"),
   ("current_state", JVal.obj []),
   ("tasks", JVal.arr [JVal.obj [("title", JVal.str "T"),
                                 ("items", JVal.arr [])]]),
   ("effort_days", JVal.bool true)]

/-- Claim C10: a JSON boolean passes the effort_days isinstance check
(a Python bool is an int), so an otherwise valid input with
effort_days set to true validates with no errors and renders the final
line as True days. -/
theorem claim10_bool_effort_days :
    (JVal.bool true).isNumber = true ∧
    validate_input boolEffortInput = [] ∧
    effortParts boolEffortInput =
      some [JVal.str "h2. Estimated Effort", JVal.str "True days"] ∧
    format_jira_description boolEffortInput =
      some ("h2. Background\nY\n\nh2. Current State\n\nh2. Tasks\n\n"
        ++ "h3. 1. T\n\nh2. Estimated Effort\nTrue days") :=
  ⟨rfl, rfl, rfl, rfl⟩

/-- The end-to-end example input with out_of_scope bound to a truthy
non-list value (a two-character string). -/
def oosInput : JObj := exampleInput ++ [("out_of_scope", JVal.str "ab")]

/-- Claim C3 counterexample: a validated input whose out_of_scope is a
truthy string, not a list, still gets an Out of Scope section (with
one bullet per character), so the section is not emitted only when
out_of_scope is a present non-empty list. -/
theorem claim3_counterexample :
    validate_input oosInput = [] ∧
    jfind oosInput "out_of_scope" = some (JVal.str "ab") ∧
    (JVal.str "ab").isList = false ∧
    outOfScopeParts oosInput =
      some [JVal.str "h2. Out of Scope", JVal.str "* a", JVal.str "* b",
            JVal.str ""] ∧
    format_jira_description oosInput =
      some ("h2. Background\nY\n\nh2. Current State\n* (/) A\n* (x) B\n\n"
        ++ "h2. Tasks\n\nh3. 1. T\n* I1\n\nh2. Out of Scope\n* a\n* b\n\n"
        ++ "h2. Estimated Effort\n3 days") :=
  ⟨rfl, rfl, rfl, rfl, rfl⟩

theorem getLast?_append_pair (l : List JVal) (a bb : JVal) :
    (l ++ [a, bb]).getLast? = some bb := by
  have h : l ++ [a, bb] = (l ++ [a]) ++ [bb] := by simp
  rw [h, List.getLast?_concat]

/-- Claim C3 (amended): whenever the renderer succeeds, its parts list
is the six sections concatenated in the fixed order Reference,
Background, Current State, Tasks, Out of Scope, Estimated Effort; the
Reference section appears exactly when reference_url is truthy, the
Out of Scope section is empty when out_of_scope is falsy and has one
bullet per element when it is a non-empty list (any truthy value
is iterated, which is what the counterexample exhibits); the Estimated
Effort section is always last, heading followed by the effort_days
value and the word days with no trailing blank line, rendering 5 days
for the integer five; and the output string is the parts joined by
newlines. -/
theorem claim3_sections_order (d : JObj) (ps : List JVal)
    (h : formatParts d = some ps) :
    (∃ r b c t o e, referenceParts d = some r ∧ backgroundParts d = some b ∧
       currentStateParts d = some c ∧ tasksParts d = some t ∧
       outOfScopeParts d = some o ∧ effortParts d = some e ∧
       ps = r ++ b ++ c ++ t ++ o ++ e ∧
       ((jgetD d "reference_url" JVal.null).truthy = false → r = []) ∧
       ((jgetD d "reference_url" JVal.null).truthy = true →
         r = [JVal.str "h2. Reference",
              JVal.str ("Source: " ++ pyStr (jgetD d "reference_url" JVal.null)),
              JVal.str ""]) ∧
       ((jgetD d "out_of_scope" JVal.null).truthy = false → o = []) ∧
       (∀ xs, jfind d "out_of_scope" = some (JVal.arr xs) → xs ≠ [] →
         o = [JVal.str "h2. Out of Scope"]
           ++ xs.map (fun item => JVal.str ("* " ++ pyStr item))
           ++ [JVal.str ""]))
  ∧ (∃ ev ps2, jfind d "effort_days" = some ev ∧
       ps = ps2 ++ [JVal.str "h2. Estimated Effort",
                    JVal.str (pyStr ev ++ " days")] ∧
       (ev = JVal.int 5 → ps.getLast? = some (JVal.str "5 days")))
  ∧ (∀ s, format_jira_description d = some s →
       ∃ ls, mapMOpt partToStr ps = some ls ∧ s = String.intercalate "\n" ls) := by
  obtain ⟨r, b, c, t, o, e, hr, hb, hc, ht, ho, he, hps⟩ :=
    (formatParts_some_iff d ps).mp h
  refine ⟨⟨r, b, c, t, o, e, hr, hb, hc, ht, ho, he, hps, ?_, ?_, ?_, ?_⟩, ?_, ?_⟩
  · intro hfalse
    rw [referenceParts_of_falsy d hfalse] at hr
    exact (Option.some.inj hr).symm
  · intro htrue
    rw [referenceParts_of_truthy d htrue] at hr
    exact (Option.some.inj hr).symm
  · intro hfalse
    rw [outOfScopeParts_of_falsy d hfalse] at ho
    exact (Option.some.inj ho).symm
  · intro xs hxs hne
    have htr : (JVal.arr xs).truthy = true := by
      cases xs with
      | nil => exact absurd rfl hne
      | cons x l => rfl
    rw [outOfScopeParts_of_truthy d (JVal.arr xs) xs hxs htr rfl] at ho
    exact (Option.some.inj ho).symm
  · obtain ⟨ev, hev, hee⟩ := effortParts_some d e he
    refine ⟨ev, r ++ b ++ c ++ t ++ o, hev, ?_, ?_⟩
    · rw [hps, hee]
    · intro hev5
      rw [hps, hee, hev5]
      have hfive : pyStr (JVal.int 5) ++ " days" = "5 days" := rfl
      rw [hfive]
      exact getLast?_append_pair _ _ _
  · intro s hs
    have hjoin : pyJoinLines ps = some s := by
      unfold format_jira_description at hs
      rw [h] at hs
      exact hs
    unfold pyJoinLines at hjoin
    obtain ⟨ls, hls, hfs⟩ := Option.map_eq_some'.mp hjoin
    exact ⟨ls, hls, hfs.symm⟩

/-- The example input with effort_days equal to five. -/
def effortFiveInput : JObj :=
  [("summary", JVal.str "X"), ("background", JVal.str "Y"),
   ("current_state", JVal.obj []),
   ("tasks", JVal.arr [JVal.obj [("title", JVal.str "T"),
                                 ("items", JVal.arr [JVal.str "I1"])]]),
   ("effort_days", JVal.int 5)]

/-- The parts list rendered from effortFiveInput. -/
def effortFiveParts : List JVal :=
  [JVal.str "h2. Background", JVal.str "Y", JVal.str "",
   JVal.str "h2. Current State", JVal.str "",
   JVal.str "h2. Tasks", JVal.str "", JVal.str "h3. 1. T", JVal.str "* I1",
   JVal.str "", JVal.str "h2. Estimated Effort", JVal.str "5 days"]

example : formatParts effortFiveInput = some effortFiveParts := by rfl

/-- Witness for the amended claim C3: at the concrete input with
effort_days five, the last rendered line is exactly 5 days. -/
theorem claim3_sections_order_witness :
    effortFiveParts.getLast? = some (JVal.str "5 days") := by
  obtain ⟨-, hEff, -⟩ := claim3_sections_order effortFiveInput effortFiveParts rfl
  obtain ⟨ev, ps2, hev, hps, hlast⟩ := hEff
  have h5 : jfind effortFiveInput "effort_days" = some (JVal.int 5) := rfl
  rw [h5] at hev
  exact hlast (Option.some.inj hev).symm

/-- The parts list rendered from the end-to-end example input. -/
def exampleParts : List JVal :=
  [JVal.str "h2. Background", JVal.str "Y", JVal.str "",
   JVal.str "h2. Current State", JVal.str "* (/) A", JVal.str "* (x) B",
   JVal.str "", JVal.str "h2. Tasks", JVal.str "", JVal.str "h3. 1. T",
   JVal.str "* I1", JVal.str "", JVal.str "h2. Estimated Effort",
   JVal.str "3 days"]

example : formatParts exampleInput = some exampleParts := by rfl

/-- Claim C4: whenever the renderer succeeds its parts list contains
the Current State heading, followed by one bullet with the (/) marker
per iterated implemented item, then one bullet with the (x) marker per
iterated missing item (input order, implemented entirely before
missing), then a blank line; when the sub-lists are lists the iterated
items are exactly their elements, and when both are empty the heading
is immediately followed by the blank line with no bullets. -/
theorem claim4_current_state_section (d : JObj) (ps : List JVal)
    (h : formatParts d = some ps) :
    ∃ pre iv implemented mv missing post,
      (jgetD d "current_state" (JVal.obj [])).pyGet "implemented"
        (JVal.arr []) = some iv ∧
      pyIter iv = some implemented ∧
      (jgetD d "current_state" (JVal.obj [])).pyGet "missing"
        (JVal.arr []) = some mv ∧
      pyIter mv = some missing ∧
      ps = pre ++ [JVal.str "h2. Current State"]
        ++ implemented.map (fun item => JVal.str ("* (/) " ++ pyStr item))
        ++ missing.map (fun item => JVal.str ("* (x) " ++ pyStr item))
        ++ [JVal.str ""] ++ post ∧
      (∀ xs, iv = JVal.arr xs → implemented = xs) ∧
      (∀ xs, mv = JVal.arr xs → missing = xs) ∧
      (implemented = [] → missing = [] →
        ps = pre ++ [JVal.str "h2. Current State", JVal.str ""] ++ post) := by
  obtain ⟨r, b, c, t, o, e, hr, hb, hc, ht, ho, he, hps⟩ :=
    (formatParts_some_iff d ps).mp h
  obtain ⟨iv, impl, mv, miss, hiv, himpl, hmv, hmiss, hcs⟩ :=
    currentStateParts_some d c hc
  refine ⟨r ++ b, iv, impl, mv, miss, t ++ o ++ e, hiv, himpl, hmv, hmiss,
    ?_, ?_, ?_, ?_⟩
  · rw [hps, hcs]
    simp [List.append_assoc]
  · intro xs hxs
    rw [hxs] at himpl
    simp only [pyIter, Option.some.injEq] at himpl
    exact himpl.symm
  · intro xs hxs
    rw [hxs] at hmiss
    simp only [pyIter, Option.some.injEq] at hmiss
    exact hmiss.symm
  · intro h1 h2
    rw [hps, hcs, h1, h2]
    simp [List.append_assoc]

/-- Witness for claim C4 at the end-to-end example input: the Current
State heading is one of the rendered lines. -/
theorem claim4_current_state_section_witness :
    JVal.str "h2. Current State" ∈ exampleParts := by
  obtain ⟨pre, iv, impl, mv, miss, post, -, -, -, -, hps, -, -, -⟩ :=
    claim4_current_state_section exampleInput exampleParts rfl
  rw [hps]
  simp

/-- Claim C5: whenever the renderer succeeds, its parts list contains
the Tasks heading followed by a blank line and then the rendered task
groups; every rendered group consists of the h3 sub-heading combining
the 1-based index and the group title, one bullet per iterated item in
order, then a blank line; the group rendering enumerates the groups in
input order numbered from 1; and the single Auth group of the claim
renders the sub-heading h3. 1. Auth followed by the bullets for Add
MFA and Rotate keys. -/
theorem claim5_tasks_section (d : JObj) (ps : List JVal)
    (h : formatParts d = some ps) :
    (∃ pre groups rendered post,
       pyIter (jgetD d "tasks" (JVal.arr [])) = some groups ∧
       renderTaskGroups 1 groups = some rendered ∧
       ps = pre ++ [JVal.str "h2. Tasks", JVal.str ""] ++ rendered ++ post)
  ∧ (∀ i g out, renderTaskGroup i g = some out →
       ∃ title iv items, g.getItem "title" = some title ∧
         g.getItem "items" = some iv ∧ pyIter iv = some items ∧
         out = [JVal.str ("h3. " ++ toString i ++ ". " ++ pyStr title)]
           ++ items.map (fun item => JVal.str ("* " ++ pyStr item))
           ++ [JVal.str ""])
  ∧ (∀ i gs, renderTaskGroups i gs =
       (mapMOpt (fun p => renderTaskGroup p.1 p.2) (List.enumFrom i gs)).map
         (fun ls => ls.flatten))
  ∧ renderTaskGroup 1 (JVal.obj [("title", JVal.str "Auth"),
       ("items", JVal.arr [JVal.str "Add MFA", JVal.str "Rotate keys"])]) =
       some [JVal.str "h3. 1. Auth", JVal.str "* Add MFA",
             JVal.str "* Rotate keys", JVal.str ""] := by
  obtain ⟨r, b, c, t, o, e, hr, hb, hc, ht, ho, he, hps⟩ :=
    (formatParts_some_iff d ps).mp h
  obtain ⟨groups, rendered, hg, hrg, hts⟩ := tasksParts_some d t ht
  refine ⟨⟨r ++ b ++ c, groups, rendered, o ++ e, hg, hrg, ?_⟩,
    ?_, ?_, rfl⟩
  · rw [hps, hts]
    simp [List.append_assoc]
  · intro i g out hout
    exact renderTaskGroup_some i g out hout
  · intro i gs
    exact renderTaskGroups_enumFrom gs i

/-- Witness for claim C5: the concrete Auth group conjunct, obtained by
applying the theorem at the example input. -/
theorem claim5_tasks_section_witness :
    renderTaskGroup 1 (JVal.obj [("title", JVal.str "Auth"),
       ("items", JVal.arr [JVal.str "Add MFA", JVal.str "Rotate keys"])]) =
       some [JVal.str "h3. 1. Auth", JVal.str "* Add MFA",
             JVal.str "* Rotate keys", JVal.str ""] :=
  (claim5_tasks_section exampleInput exampleParts rfl).2.2.2

theorem strParts_bullets (f : JVal → String) (l : List JVal) :
    ∀ p ∈ l.map (fun item => JVal.str (f item)), p.isStr = true := by
  intro p hp
  obtain ⟨x, hx, rfl⟩ := List.mem_map.mp hp
  rfl

theorem mapMOpt_partToStr_isSome (ps : List JVal)
    (h : ∀ p ∈ ps, p.isStr = true) : (mapMOpt partToStr ps).isSome = true := by
  induction ps with
  | nil => rfl
  | cons p ps ih =>
    have hp := h p (by simp)
    have hrest := ih (fun q hq => h q (by simp [hq]))
    cases hm : mapMOpt partToStr ps with
    | none => rw [hm] at hrest; simp at hrest
    | some bs =>
      cases p with
      | str s => simp [mapMOpt, partToStr, hm]
      | null => simp [JVal.isStr] at hp
      | bool b => simp [JVal.isStr] at hp
      | int n => simp [JVal.isStr] at hp
      | float q => simp [JVal.isStr] at hp
      | arr xs => simp [JVal.isStr] at hp
      | obj fs => simp [JVal.isStr] at hp

theorem pyJoinLines_isSome (ps : List JVal)
    (h : ∀ p ∈ ps, p.isStr = true) : (pyJoinLines ps).isSome = true := by
  unfold pyJoinLines
  cases hm : mapMOpt partToStr ps with
  | none =>
    have := mapMOpt_partToStr_isSome ps h
    rw [hm] at this
    simp at this
  | some ls => rfl

theorem referenceParts_strParts (d : JObj) :
    ∃ r, referenceParts d = some r ∧ ∀ p ∈ r, p.isStr = true := by
  cases htr : (jgetD d "reference_url" JVal.null).truthy with
  | false => exact ⟨[], referenceParts_of_falsy d htr, by simp⟩
  | true =>
    refine ⟨_, referenceParts_of_truthy d htr, ?_⟩
    intro p hp
    simp only [List.mem_cons, List.mem_singleton, List.not_mem_nil,
      or_false] at hp
    rcases hp with rfl | rfl | rfl <;> rfl

theorem backgroundParts_valid (d : JObj)
    (h : (jgetD d "background" JVal.null).truthy = true)
    (hbg : ∀ v, jfind d "background" = some v → v.isStr = true) :
    ∃ b, backgroundParts d = some b ∧ ∀ p ∈ b, p.isStr = true := by
  have hf := jfind_of_truthy d "background" h
  refine ⟨[JVal.str "h2. Background", jgetD d "background" JVal.null,
    JVal.str ""], ?_, ?_⟩
  · simp [backgroundParts, hf]
  · intro p hp
    simp only [List.mem_cons, List.mem_singleton, List.not_mem_nil,
      or_false] at hp
    rcases hp with rfl | rfl | rfl
    · rfl
    · exact hbg _ hf
    · rfl

theorem currentStateParts_valid (d : JObj) (cs : JVal)
    (hcs : jfind d "current_state" = some cs) (hdict : cs.isDict = true)
    (himpl : ∀ v, cs.getItem "implemented" = some v → (pyIter v).isSome = true)
    (hmiss : ∀ v, cs.getItem "missing" = some v → (pyIter v).isSome = true) :
    ∃ c, currentStateParts d = some c ∧ ∀ p ∈ c, p.isStr = true := by
  cases cs with
  | obj fs =>
    have hget : jgetD d "current_state" (JVal.obj []) = JVal.obj fs := by
      unfold jgetD
      rw [hcs]
      rfl
    have hivIter : (pyIter ((assocFind fs "implemented").getD (JVal.arr []))).isSome = true := by
      cases ha : assocFind fs "implemented" with
      | none => rfl
      | some v => exact himpl v (by simp [JVal.getItem, ha])
    have hmvIter : (pyIter ((assocFind fs "missing").getD (JVal.arr []))).isSome = true := by
      cases ha : assocFind fs "missing" with
      | none => rfl
      | some v => exact hmiss v (by simp [JVal.getItem, ha])
    obtain ⟨impl, himplEq⟩ := Option.isSome_iff_exists.mp hivIter
    obtain ⟨miss, hmissEq⟩ := Option.isSome_iff_exists.mp hmvIter
    refine ⟨[JVal.str "h2. Current State"]
      ++ impl.map (fun item => JVal.str ("* (/) " ++ pyStr item))
      ++ miss.map (fun item => JVal.str ("* (x) " ++ pyStr item))
      ++ [JVal.str ""], ?_, ?_⟩
    · simp [currentStateParts, hget, JVal.pyGet, himplEq, hmissEq]
    · intro p hp
      simp only [List.append_assoc, List.mem_append, List.mem_cons,
        List.mem_singleton, List.not_mem_nil, or_false] at hp
      rcases hp with rfl | hp | hp | rfl
      · rfl
      · exact strParts_bullets _ impl p (List.mem_map.mpr
          (List.mem_map.mp hp))
      · exact strParts_bullets _ miss p (List.mem_map.mpr
          (List.mem_map.mp hp))
      · rfl
  | null => simp [JVal.isDict] at hdict
  | bool b => simp [JVal.isDict] at hdict
  | int n => simp [JVal.isDict] at hdict
  | float q => simp [JVal.isDict] at hdict
  | str s => simp [JVal.isDict] at hdict
  | arr xs => simp [JVal.isDict] at hdict

theorem renderTaskGroup_valid (i : Nat) (g : JVal)
    (hg : ∃ title iv items, g.getItem "title" = some title ∧
      g.getItem "items" = some iv ∧ pyIter iv = some items) :
    ∃ out, renderTaskGroup i g = some out ∧ ∀ p ∈ out, p.isStr = true := by
  obtain ⟨title, iv, items, h1, h2, h3⟩ := hg
  refine ⟨[JVal.str ("h3. " ++ toString i ++ ". " ++ pyStr title)]
    ++ items.map (fun item => JVal.str ("* " ++ pyStr item))
    ++ [JVal.str ""], ?_, ?_⟩
  · simp [renderTaskGroup, h1, h2, h3]
  · intro p hp
    simp only [List.append_assoc, List.mem_append, List.mem_cons,
      List.mem_singleton, List.not_mem_nil, or_false] at hp
    rcases hp with rfl | hp | rfl
    · rfl
    · exact strParts_bullets _ items p (List.mem_map.mpr (List.mem_map.mp hp))
    · rfl

theorem renderTaskGroups_valid (gs : List JVal)
    (hg : ∀ g ∈ gs, ∃ title iv items, g.getItem "title" = some title ∧
      g.getItem "items" = some iv ∧ pyIter iv = some items) :
    ∀ i, ∃ out, renderTaskGroups i gs = some out ∧
      ∀ p ∈ out, p.isStr = true := by
  induction gs with
  | nil => intro i; exact ⟨[], rfl, by simp⟩
  | cons g gs ih =>
    intro i
    obtain ⟨outg, hout, hstr⟩ := renderTaskGroup_valid i g (hg g (by simp))
    obtain ⟨rest, hrest, hrstr⟩ := ih (fun q hq => hg q (by simp [hq])) (i + 1)
    refine ⟨outg ++ rest, ?_, ?_⟩
    · simp [renderTaskGroups, hout, hrest]
    · intro p hp
      rcases List.mem_append.mp hp with hl | hl
      · exact hstr p hl
      · exact hrstr p hl

theorem tasksParts_valid (d : JObj) (x : JVal) (xs : List JVal)
    (hts : jfind d "tasks" = some (JVal.arr (x :: xs)))
    (htask : ∀ g ∈ x :: xs, ∃ title iv items, g.getItem "title" = some title ∧
      g.getItem "items" = some iv ∧ pyIter iv = some items) :
    ∃ t, tasksParts d = some t ∧ ∀ p ∈ t, p.isStr = true := by
  have hget : jgetD d "tasks" (JVal.arr []) = JVal.arr (x :: xs) := by
    unfold jgetD
    rw [hts]
    rfl
  obtain ⟨rendered, hrend, hstr⟩ := renderTaskGroups_valid (x :: xs) htask 1
  refine ⟨[JVal.str "h2. Tasks", JVal.str ""] ++ rendered, ?_, ?_⟩
  · simp [tasksParts, hget, pyIter, hrend]
  · intro p hp
    simp only [List.mem_append, List.mem_cons, List.mem_singleton,
      List.not_mem_nil, or_false] at hp
    rcases hp with (rfl | rfl) | hp
    · rfl
    · rfl
    · exact hstr p hp

theorem outOfScopeParts_valid (d : JObj)
    (hoos : ∀ v, jfind d "out_of_scope" = some v → v.truthy = true →
      (pyIter v).isSome = true) :
    ∃ o, outOfScopeParts d = some o ∧ ∀ p ∈ o, p.isStr = true := by
  cases htr : (jgetD d "out_of_scope" JVal.null).truthy with
  | false => exact ⟨[], outOfScopeParts_of_falsy d htr, by simp⟩
  | true =>
    have hf := jfind_of_truthy d "out_of_scope" htr
    have hit : (pyIter (jgetD d "out_of_scope" JVal.null)).isSome = true :=
      hoos _ hf htr
    obtain ⟨items, hitems⟩ := Option.isSome_iff_exists.mp hit
    refine ⟨_, outOfScopeParts_of_truthy d _ items hf htr hitems, ?_⟩
    intro p hp
    simp only [List.append_assoc, List.mem_append, List.mem_cons,
      List.mem_singleton, List.not_mem_nil, or_false] at hp
    rcases hp with rfl | hp | rfl
    · rfl
    · exact strParts_bullets _ items p (List.mem_map.mpr (List.mem_map.mp hp))
    · rfl

theorem effortParts_valid (d : JObj) (ev : JVal)
    (hev : jfind d "effort_days" = some ev) :
    effortParts d =
      some [JVal.str "h2. Estimated Effort", JVal.str (pyStr ev ++ " days")] := by
  simp [effortParts, hev]

/-- A validated input whose single task group is an empty object. -/
def badTasksInput : JObj :=
  [("summary", JVal.str "X"), ("background", JVal.str "Y"),
   ("current_state", JVal.obj []), ("tasks", JVal.arr [JVal.obj []]),
   ("effort_days", JVal.int 3)]

/-- Claim C6 counterexample: validation alone is not sufficient for the
renderer to be total: the input whose single task group lacks the
title and items keys passes validation with no errors, yet rendering
fails (in the source with KeyError on title). -/
theorem claim6_counterexample :
    validate_input badTasksInput = [] ∧
    format_jira_description badTasksInput = none :=
  ⟨rfl, rfl⟩

/-- Claim C6 (amended): validation passing together with the data-model
invariants of the specification - background a string, the
current_state sub-lists iterable when present, every task group
carrying a title and an iterable items value, and out_of_scope
iterable when truthy - is sufficient for format_jira_description to
succeed and return a string; validation alone is not, as the
counterexample shows. -/
theorem claim6_renderer_total (d : JObj)
    (hval : validate_input d = [])
    (hbg : ∀ v, jfind d "background" = some v → v.isStr = true)
    (himpl : ∀ cs v, jfind d "current_state" = some cs →
      cs.getItem "implemented" = some v → (pyIter v).isSome = true)
    (hmiss : ∀ cs v, jfind d "current_state" = some cs →
      cs.getItem "missing" = some v → (pyIter v).isSome = true)
    (htask : ∀ xs g, jfind d "tasks" = some (JVal.arr xs) → g ∈ xs →
      ∃ title iv items, g.getItem "title" = some title ∧
        g.getItem "items" = some iv ∧ pyIter iv = some items)
    (hoos : ∀ v, jfind d "out_of_scope" = some v → v.truthy = true →
      (pyIter v).isSome = true) :
    (format_jira_description d).isSome = true := by
  obtain ⟨hsum, hback, ⟨cs, hcs, hdict⟩, ⟨x, xs, hts⟩, ⟨ev, hev, hnum⟩⟩ :=
    (validate_input_eq_nil_iff d).mp hval
  obtain ⟨r, hrEq, hrStr⟩ := referenceParts_strParts d
  obtain ⟨b, hbEq, hbStr⟩ := backgroundParts_valid d hback hbg
  obtain ⟨c, hcEq, hcStr⟩ := currentStateParts_valid d cs hcs hdict
    (fun v hv => himpl cs v hcs hv) (fun v hv => hmiss cs v hcs hv)
  obtain ⟨t, htEq, htStr⟩ := tasksParts_valid d x xs hts
    (fun g hg => htask (x :: xs) g hts hg)
  obtain ⟨o, hoEq, hoStr⟩ := outOfScopeParts_valid d hoos
  have heEq := effortParts_valid d ev hev
  have hformat : formatParts d = some (r ++ b ++ c ++ t ++ o
      ++ [JVal.str "h2. Estimated Effort", JVal.str (pyStr ev ++ " days")]) :=
    (formatParts_some_iff d _).mpr
      ⟨r, b, c, t, o, _, hrEq, hbEq, hcEq, htEq, hoEq, heEq, rfl⟩
  have hall : ∀ p ∈ r ++ b ++ c ++ t ++ o
      ++ [JVal.str "h2. Estimated Effort", JVal.str (pyStr ev ++ " days")],
      p.isStr = true := by
    intro p hp
    simp only [List.mem_append] at hp
    rcases hp with ((((hl | hl) | hl) | hl) | hl) | hl
    · exact hrStr p hl
    · exact hbStr p hl
    · exact hcStr p hl
    · exact htStr p hl
    · exact hoStr p hl
    · rcases List.mem_cons.mp hl with rfl | hl2
      · rfl
      · rcases List.mem_singleton.mp hl2 with rfl
        rfl
  unfold format_jira_description
  rw [hformat]
  exact pyJoinLines_isSome _ hall

/-- Witness for the amended claim C6 at the end-to-end example input. -/
theorem claim6_renderer_total_witness :
    (format_jira_description exampleInput).isSome = true := by
  refine claim6_renderer_total exampleInput rfl ?_ ?_ ?_ ?_ ?_
  · intro v hv
    cases hv
    rfl
  · intro cs v hcs hv
    cases hcs
    cases hv
    rfl
  · intro cs v hcs hv
    cases hcs
    cases hv
    rfl
  · intro xs g hxs hg
    cases hxs
    simp only [List.mem_singleton] at hg
    subst hg
    exact ⟨JVal.str "T", JVal.arr [JVal.str "I1"], [JVal.str "I1"],
      rfl, rfl, rfl⟩
  · intro v hv
    exact Option.noConfusion hv

/-- Claim C7: with the JIRA_API_TOKEN environment variable unset or
empty, the run prints the setup guidance to standard error and exits
with code 1; standard input is never read (so no JSON parsing is
attempted), no collaborator is called, and nothing is printed to
standard output. -/
theorem claim7_missing_token (env : MainEnv)
    (h : env.jiraApiToken = none ∨ env.jiraApiToken = some "") :
    mainRun env =
      { exitCode := 1, stdoutLines := [], stderrLines := jiraTokenGuidance,
        stdinRead := false, createCalled := false, updateCalled := false,
        crashed := false } := by
  rcases h with h | h <;> simp [mainRun, check_jira_token, h]

/-- Witness for claim C7 at a concrete environment with the token
unset. -/
theorem claim7_missing_token_witness :
    mainRun { jiraApiToken := none, parsedInput := some exampleInput,
              jsonErrorMsg := "", createTicketResult := some "RHAIENG-1",
              updateTicketResult := true } =
      { exitCode := 1, stdoutLines := [], stderrLines := jiraTokenGuidance,
        stdinRead := false, createCalled := false, updateCalled := false,
        crashed := false } :=
  claim7_missing_token _ (Or.inl rfl)

/-- Claim C8: on a run that reaches ticket creation (valid token,
parsed and validated input, renderable description), a creation
failure prints an error and exits 1 with nothing on standard output,
while a creation success followed by an update failure prints only a
warning to standard error, still prints the ticket key to standard
output, and exits 0. -/
theorem claim8_exit_codes (env : MainEnv) (d : JObj) (tok : String)
    (htok : env.jiraApiToken = some tok) (htokne : tok ≠ "")
    (hparse : env.parsedInput = some d)
    (hval : validate_input d = [])
    (hfmt : (format_jira_description d).isSome = true) :
    (env.createTicketResult = none →
      mainRun env =
        { exitCode := 1, stdoutLines := [],
          stderrLines := ["ERROR: Failed to create JIRA ticket"],
          stdinRead := true, createCalled := true, updateCalled := false,
          crashed := false })
  ∧ (∀ k, env.createTicketResult = some k → env.updateTicketResult = false →
      mainRun env =
        { exitCode := 0, stdoutLines := [k],
          stderrLines := ["WARNING: Created " ++ k ++ " but failed to update description"],
          stdinRead := true, createCalled := true, updateCalled := true,
          crashed := false }) := by
  obtain ⟨s, hs⟩ := Option.isSome_iff_exists.mp hfmt
  constructor
  · intro hcreate
    simp [mainRun, check_jira_token, htok, htokne, hparse, hval, hs, hcreate]
  · intro k hcreate hupdate
    simp [mainRun, check_jira_token, htok, htokne, hparse, hval, hs,
      hcreate, hupdate]

/-- Witness for claim C8 at two concrete environments, one failing
creation and one failing only the follow-up update. -/
theorem claim8_exit_codes_witness :
    (mainRun { jiraApiToken := some "tok", parsedInput := some exampleInput,
               jsonErrorMsg := "", createTicketResult := none,
               updateTicketResult := true } =
      { exitCode := 1, stdoutLines := [],
        stderrLines := ["ERROR: Failed to create JIRA ticket"],
        stdinRead := true, createCalled := true, updateCalled := false,
        crashed := false })
  ∧ (mainRun { jiraApiToken := some "tok", parsedInput := some exampleInput,
               jsonErrorMsg := "", createTicketResult := some "RHAIENG-1841",
               updateTicketResult := false } =
      { exitCode := 0, stdoutLines := ["RHAIENG-1841"],
        stderrLines := ["WARNING: Created RHAIENG-1841 but failed to update description"],
        stdinRead := true, createCalled := true, updateCalled := true,
        crashed := false }) := by
  constructor
  · exact (claim8_exit_codes _ exampleInput "tok" rfl (by decide) rfl rfl
      rfl).1 rfl
  · exact (claim8_exit_codes _ exampleInput "tok" rfl (by decide) rfl rfl
      rfl).2 "RHAIENG-1841" rfl rfl
